import Mathlib

/-!
Verification of the EIP-3009 typed-data authorization core of `erc20-rs`.

The development shallowly embeds the digest engine (`src/signing/eip712.rs`),
the parameter model (`src/types.rs`), the signing service
(`src/signing/authorization.rs`), the time-bounds helper
(`src/signing/mod.rs`) and the submission wrappers (`src/eip3009.rs`).

Bytes are `Nat` values below 256, byte strings are `List Nat`, 256-bit words
are `Nat`, and the wall clock is an explicit parameter.  Keccak-256 is
implemented executably so that concrete digests can be checked by the kernel.
-/

set_option maxRecDepth 8000
set_option maxHeartbeats 4000000

namespace Erc20

/-! ### Keccak-256 (the hash used by `alloy_primitives::keccak256`) -/

/-- The 64-bit lane mask. -/
def mask64 : Nat := 2 ^ 64 - 1

/-- Left-rotation of a 64-bit lane by `n` bits (`0 ≤ n < 64`). -/
def rotl64 (x n : Nat) : Nat := ((x <<< n) ||| (x >>> (64 - n))) &&& mask64

/-- The 24 Keccak-f[1600] round constants. -/
def keccakRC : List Nat :=
  [0x0000000000000001, 0x0000000000008082, 0x800000000000808A] ++
  [0x8000000080008000, 0x000000000000808B, 0x0000000080000001] ++
  [0x8000000080008081, 0x8000000000008009, 0x000000000000008A] ++
  [0x0000000000000088, 0x0000000080008009, 0x000000008000000A] ++
  [0x000000008000808B, 0x800000000000008B, 0x8000000000008089] ++
  [0x8000000000008003, 0x8000000000008002, 0x8000000000000080] ++
  [0x000000000000800A, 0x800000008000000A, 0x8000000080008081] ++
  [0x8000000000008080, 0x0000000080000001, 0x8000000080008008]

/-- Rotation offsets for the ρ step, indexed by lane position `x + 5 * y`,
one sub-list per row `y`. -/
def keccakRot : List Nat :=
  [0, 1, 62, 28, 27] ++
  [36, 44, 6, 55, 20] ++
  [3, 10, 43, 25, 39] ++
  [41, 45, 15, 21, 8] ++
  [18, 2, 61, 56, 14]

/-- θ step of Keccak-f[1600]; the state is 25 lanes indexed by `x + 5 * y`. -/
def theta (s : List Nat) : List Nat :=
  let c := (List.range 5).map fun x =>
    (s.getD x 0) ^^^ (s.getD (x + 5) 0) ^^^ (s.getD (x + 10) 0) ^^^
      (s.getD (x + 15) 0) ^^^ (s.getD (x + 20) 0)
  let d := (List.range 5).map fun x =>
    (c.getD ((x + 4) % 5) 0) ^^^ rotl64 (c.getD ((x + 1) % 5) 0) 1
  (List.range 25).map fun i => (s.getD i 0) ^^^ (d.getD (i % 5) 0)

/-- Combined ρ and π steps: output lane `(x', y')` is the input lane
`((x' + 3 y') % 5, x')` rotated by its ρ offset. -/
def rhoPi (s : List Nat) : List Nat :=
  (List.range 25).map fun j =>
    let i := (j % 5 + 3 * (j / 5)) % 5 + 5 * (j % 5)
    rotl64 (s.getD i 0) (keccakRot.getD i 0)

/-- χ step: lane `(x, y)` becomes `a ^^^ (¬b &&& c)` with `b`, `c` the next two
lanes in the same row. -/
def chi (s : List Nat) : List Nat :=
  (List.range 25).map fun j =>
    let row := 5 * (j / 5)
    (s.getD j 0) ^^^ (((s.getD (row + (j + 1) % 5) 0) ^^^ mask64) &&&
      (s.getD (row + (j + 2) % 5) 0))

/-- ι step: XOR the round constant into lane `(0, 0)`. -/
def iotaStep (rc : Nat) (s : List Nat) : List Nat :=
  (List.range 25).map fun j => if j = 0 then (s.getD 0 0) ^^^ rc else s.getD j 0

/-- One Keccak-f[1600] round. -/
def keccakRound (s : List Nat) (rc : Nat) : List Nat :=
  iotaStep rc (chi (rhoPi (theta s)))

/-- The full 24-round Keccak-f[1600] permutation. -/
def keccakF (s : List Nat) : List Nat := keccakRC.foldl keccakRound s

/-- Lane `i` of a 136-byte rate block, read little-endian. -/
def laneAt (block : List Nat) (i : Nat) : Nat :=
  ((block.drop (8 * i)).take 8).foldr (fun b acc => b + 256 * acc) 0

/-- Absorb one 136-byte block: XOR it into the first 17 lanes, then permute. -/
def absorbBlock (s : List Nat) (block : List Nat) : List Nat :=
  keccakF ((List.range 25).map fun i =>
    if i < 17 then (s.getD i 0) ^^^ laneAt block i else s.getD i 0)

/-- Keccak multi-rate padding (`10*1`) for rate 136, given the message length. -/
def padKeccak (len : Nat) : List Nat :=
  let r := 136 - len % 136
  if r = 1 then [0x81] else 0x01 :: (List.replicate (r - 2) 0 ++ [0x80])

/-- Split a byte string into 136-byte blocks; the first argument is fuel
(structural recursion so the kernel can evaluate it). -/
def chunksAux : Nat → List Nat → List (List Nat)
  | 0, _ => []
  | _, [] => []
  | fuel + 1, l => l.take 136 :: chunksAux fuel (l.drop 136)

/-- The 8 bytes of a 64-bit lane, little-endian. -/
def laneToBytes (n : Nat) : List Nat :=
  (List.range 8).map fun i => (n >>> (8 * i)) &&& 255

/-- Keccak-256 of a byte string: pad, absorb all blocks, squeeze 32 bytes. -/
def keccak256 (msg : List Nat) : List Nat :=
  let padded := msg ++ padKeccak msg.length
  let st := (chunksAux padded.length padded).foldl absorbBlock (List.replicate 25 0)
  ((List.range 4).map fun i => laneToBytes (st.getD i 0)).flatten

/-- ASCII bytes of a string (all strings hashed here are 7-bit ASCII). -/
def strBytes (s : String) : List Nat := s.data.map Char.toNat

/-! ### Digest engine (`src/signing/eip712.rs`)

Addresses are 20-byte strings, `FixedBytes<32>` values are 32-byte strings,
`U256` values are `Nat`. -/

/-- The canonical field-signature string of `TransferWithAuthorization`
(the `sol!` declaration, `src/signing/eip712.rs:45`). -/
def transferTypeString : String :=
  "TransferWithAuthorization(address from,address to,uint256 value,uint256 validAfter,uint256 validBefore,bytes32 nonce)"

/-- The canonical field-signature string of `ReceiveWithAuthorization`
(the `sol!` declaration, `src/signing/eip712.rs:56`). -/
def receiveTypeString : String :=
  "ReceiveWithAuthorization(address from,address to,uint256 value,uint256 validAfter,uint256 validBefore,bytes32 nonce)"

/-- The canonical field-signature string of `CancelAuthorization`
(the `sol!` declaration, `src/signing/eip712.rs:67`). -/
def cancelTypeString : String :=
  "CancelAuthorization(address authorizer,bytes32 nonce)"

/-- The literal constant `TRANSFER_WITH_AUTHORIZATION_TYPEHASH`
(`src/signing/eip712.rs:17`). -/
def TRANSFER_WITH_AUTHORIZATION_TYPEHASH : List Nat :=
  [0x7c, 0x7c, 0x6c, 0xdb, 0x67, 0xa1, 0x87, 0x43, 0xf4, 0x9e, 0xc6, 0xfa, 0x9b, 0x35, 0xf5, 0x0d,
   0x52, 0xed, 0x05, 0xcb, 0xed, 0x4c, 0xc5, 0x92, 0xe1, 0x3b, 0x44, 0x50, 0x1c, 0x1a, 0x22, 0x67]

/-- The literal constant `RECEIVE_WITH_AUTHORIZATION_TYPEHASH`
(`src/signing/eip712.rs:27`). -/
def RECEIVE_WITH_AUTHORIZATION_TYPEHASH : List Nat :=
  [0xd0, 0x99, 0xcc, 0x98, 0xef, 0x71, 0x10, 0x7a, 0x61, 0x6c, 0x4f, 0x0f, 0x94, 0x1f, 0x04, 0xc3,
   0x22, 0xd8, 0xe2, 0x54, 0xfe, 0x26, 0xb3, 0xc6, 0x66, 0x8d, 0xb8, 0x7a, 0xae, 0x41, 0x3d, 0xe8]

/-- The literal constant `CANCEL_AUTHORIZATION_TYPEHASH`
(`src/signing/eip712.rs:37`). -/
def CANCEL_AUTHORIZATION_TYPEHASH : List Nat :=
  [0x15, 0x8b, 0x0a, 0x9e, 0xdf, 0x7a, 0x82, 0x8a, 0xad, 0x02, 0xf6, 0x3c, 0xd5, 0x15, 0xc6, 0x8e,
   0xf2, 0xf5, 0x0b, 0xa8, 0x07, 0x39, 0x6f, 0x6d, 0x12, 0x84, 0x28, 0x33, 0xa1, 0x59, 0x74, 0x29]

/-- A `uint256` ABI word: the 32 big-endian bytes of the value. -/
def word_of_uint (v : Nat) : List Nat :=
  (List.range 32).map fun i => v / 256 ^ (31 - i) % 256

/-- ABI word of a 20-byte address: left-padded with 12 zero bytes. -/
def word_of_address (a : List Nat) : List Nat := List.replicate 12 0 ++ a

/-- `TransferWithAuthorization::eip712_hash_struct()` as `alloy_sol_types`
derives it from the `sol!` declaration: `keccak256` of the type hash
(`keccak256` of the canonical signature string) followed by the ABI word of
each field in declaration order. -/
def eip712_hash_struct_transfer (fromA toA : List Nat)
    (value validAfter validBefore : Nat) (nonce : List Nat) : List Nat :=
  keccak256 (keccak256 (strBytes transferTypeString) ++
    word_of_address fromA ++ word_of_address toA ++ word_of_uint value ++
    word_of_uint validAfter ++ word_of_uint validBefore ++ nonce)

/-- `ReceiveWithAuthorization::eip712_hash_struct()` as `alloy_sol_types`
derives it from the `sol!` declaration. -/
def eip712_hash_struct_receive (fromA toA : List Nat)
    (value validAfter validBefore : Nat) (nonce : List Nat) : List Nat :=
  keccak256 (keccak256 (strBytes receiveTypeString) ++
    word_of_address fromA ++ word_of_address toA ++ word_of_uint value ++
    word_of_uint validAfter ++ word_of_uint validBefore ++ nonce)

/-- `CancelAuthorization::eip712_hash_struct()` as `alloy_sol_types` derives
it from the `sol!` declaration. -/
def eip712_hash_struct_cancel (authorizer nonce : List Nat) : List Nat :=
  keccak256 (keccak256 (strBytes cancelTypeString) ++
    word_of_address authorizer ++ nonce)

/-- `compute_eip712_digest` (`src/signing/eip712.rs:178`):
`keccak256` of `0x19 0x01` followed by the domain separator and struct hash. -/
def compute_eip712_digest (domain_separator struct_hash : List Nat) : List Nat :=
  keccak256 ([0x19, 0x01] ++ domain_separator ++ struct_hash)

/-- `hash_transfer_with_authorization` (`src/signing/eip712.rs:90`). -/
def hash_transfer_with_authorization (domain_separator fromA toA : List Nat)
    (value valid_after valid_before : Nat) (nonce : List Nat) : List Nat :=
  compute_eip712_digest domain_separator
    (eip712_hash_struct_transfer fromA toA value valid_after valid_before nonce)

/-- `hash_receive_with_authorization` (`src/signing/eip712.rs:127`). -/
def hash_receive_with_authorization (domain_separator fromA toA : List Nat)
    (value valid_after valid_before : Nat) (nonce : List Nat) : List Nat :=
  compute_eip712_digest domain_separator
    (eip712_hash_struct_receive fromA toA value valid_after valid_before nonce)

/-- `hash_cancel_authorization` (`src/signing/eip712.rs:160`). -/
def hash_cancel_authorization (domain_separator authorizer nonce : List Nat) :
    List Nat :=
  compute_eip712_digest domain_separator
    (eip712_hash_struct_cancel authorizer nonce)

/-! ### Parameter model (`src/types.rs`)

The `u64` fields are `Nat` values below `2 ^ 64`; the wall clock is an
explicit `Int` parameter (seconds relative to the Unix epoch, negative when
the system clock is before the epoch); a panic is `none`. -/

/-- `u64::MAX`. -/
def u64_MAX : Nat := 2 ^ 64 - 1

/-- `TransferAuthorizationParams` (`src/types.rs:10`). -/
structure TransferAuthorizationParams where
  fromAddr : List Nat
  toAddr : List Nat
  value : Nat
  valid_after : Nat
  valid_before : Nat
  nonce : List Nat
deriving DecidableEq

/-- `TransferAuthorizationParams::new` (`src/types.rs:33`): stores every field
as passed, no validation. -/
def TransferAuthorizationParams.new (fromA toA : List Nat) (value : Nat)
    (valid_after valid_before : Nat) (nonce : List Nat) :
    TransferAuthorizationParams :=
  { fromAddr := fromA, toAddr := toA, value := value,
    valid_after := valid_after, valid_before := valid_before, nonce := nonce }

/-- `SystemTime::now().duration_since(UNIX_EPOCH).expect("Time went backwards")
.as_secs()`: the clock sample is the explicit parameter; the `expect` panic
(clock before the epoch) is `none`. -/
def unix_now_secs (nowClock : Int) : Option Nat :=
  if nowClock < 0 then none else some nowClock.toNat

/-- Unchecked `u64` addition `now + duration_seconds`; the arithmetic-overflow
panic branch is `none`. -/
def u64_add (a b : Nat) : Option Nat :=
  if a + b ≤ u64_MAX then some (a + b) else none

/-- `TransferAuthorizationParams::with_duration` (`src/types.rs:74`): samples
the clock once and sets `valid_after = now`, `valid_before = now +
duration_seconds`. -/
def TransferAuthorizationParams.with_duration (fromA toA : List Nat)
    (value : Nat) (duration_seconds : Nat) (nonce : List Nat)
    (nowClock : Int) : Option TransferAuthorizationParams :=
  match unix_now_secs nowClock with
  | none => none
  | some now =>
    match u64_add now duration_seconds with
    | none => none
    | some vb => some { fromAddr := fromA, toAddr := toA, value := value,
                        valid_after := now, valid_before := vb, nonce := nonce }

/-- `TransferAuthorizationParams::without_time_bounds` (`src/types.rs:103`):
`valid_after = 0`, `valid_before = u64::MAX`. -/
def TransferAuthorizationParams.without_time_bounds (fromA toA : List Nat)
    (value : Nat) (nonce : List Nat) : TransferAuthorizationParams :=
  { fromAddr := fromA, toAddr := toA, value := value,
    valid_after := 0, valid_before := u64_MAX, nonce := nonce }

/-- `CancelAuthorizationParams` (`src/types.rs:122`). -/
structure CancelAuthorizationParams where
  authorizer : List Nat
  nonce : List Nat
deriving DecidableEq

/-- `CancelAuthorizationParams::new` (`src/types.rs:131`). -/
def CancelAuthorizationParams.new (authorizer nonce : List Nat) :
    CancelAuthorizationParams :=
  { authorizer := authorizer, nonce := nonce }

/-- `create_time_bounds` (`src/signing/mod.rs:51`): one clock sample `now`,
returns `(now, now + duration_seconds)`; panics are `none`. -/
def create_time_bounds (duration_seconds : Nat) (nowClock : Int) :
    Option (Nat × Nat) :=
  match unix_now_secs nowClock with
  | none => none
  | some now =>
    match u64_add now duration_seconds with
    | none => none
    | some vb => some (now, vb)

/-! ### Signing service (`src/signing/authorization.rs`)

A `PrivateKeySigner` is modelled by its `sign_hash` function on 32-byte
digests (alloy's local signer signs with RFC-6979 deterministic ECDSA, so it
is a function of the digest; its result type is abstract to cover the
`Result` wrapping). -/

/-- `U256::from` on a `u64`: the value-preserving widening to a 256-bit word. -/
def u256_from_u64 (x : Nat) : Nat := x

/-- `sign_transfer_authorization` (`src/signing/authorization.rs:44`):
computes the transfer digest and passes it to the signer's `sign_hash`. -/
def sign_transfer_authorization {S : Type} (signHash : List Nat → S)
    (params : TransferAuthorizationParams) (domain_separator : List Nat) : S :=
  signHash (hash_transfer_with_authorization domain_separator
    params.fromAddr params.toAddr params.value
    (u256_from_u64 params.valid_after) (u256_from_u64 params.valid_before)
    params.nonce)

/-- `sign_transfer_authorization_sync` (`src/signing/authorization.rs:65`):
same digest, passed to the signer's `sign_hash_sync`. -/
def sign_transfer_authorization_sync {S : Type} (signHash : List Nat → S)
    (params : TransferAuthorizationParams) (domain_separator : List Nat) : S :=
  signHash (hash_transfer_with_authorization domain_separator
    params.fromAddr params.toAddr params.value
    (u256_from_u64 params.valid_after) (u256_from_u64 params.valid_before)
    params.nonce)

/-- `sign_receive_authorization` (`src/signing/authorization.rs:99`). -/
def sign_receive_authorization {S : Type} (signHash : List Nat → S)
    (params : TransferAuthorizationParams) (domain_separator : List Nat) : S :=
  signHash (hash_receive_with_authorization domain_separator
    params.fromAddr params.toAddr params.value
    (u256_from_u64 params.valid_after) (u256_from_u64 params.valid_before)
    params.nonce)

/-- `sign_receive_authorization_sync` (`src/signing/authorization.rs:118`). -/
def sign_receive_authorization_sync {S : Type} (signHash : List Nat → S)
    (params : TransferAuthorizationParams) (domain_separator : List Nat) : S :=
  signHash (hash_receive_with_authorization domain_separator
    params.fromAddr params.toAddr params.value
    (u256_from_u64 params.valid_after) (u256_from_u64 params.valid_before)
    params.nonce)

/-- `sign_cancel_authorization` (`src/signing/authorization.rs:147`). -/
def sign_cancel_authorization {S : Type} (signHash : List Nat → S)
    (params : CancelAuthorizationParams) (domain_separator : List Nat) : S :=
  signHash (hash_cancel_authorization domain_separator
    params.authorizer params.nonce)

/-- `sign_cancel_authorization_sync` (`src/signing/authorization.rs:158`). -/
def sign_cancel_authorization_sync {S : Type} (signHash : List Nat → S)
    (params : CancelAuthorizationParams) (domain_separator : List Nat) : S :=
  signHash (hash_cancel_authorization domain_separator
    params.authorizer params.nonce)

/-! ### Submission wrappers (`src/eip3009.rs`) -/

/-- An `alloy_primitives::Signature`: the scalars `r`, `s` and the boolean
recovery parity returned by `Signature::v()`. -/
structure Signature where
  r : Nat
  s : Nat
  yParity : Bool
deriving DecidableEq

/-- `Signature::as_bytes`, as alloy serializes it: `r` (32 bytes big-endian),
`s` (32 bytes big-endian), then the legacy `v` byte `27 + parity`. -/
def Signature.as_bytes (sig : Signature) : List Nat :=
  word_of_uint sig.r ++ word_of_uint sig.s ++ [if sig.yParity then 28 else 27]

/-- The argument record handed to the contract call
`transferWithAuthorization` / `receiveWithAuthorization`. -/
structure AuthorizationCallArgs where
  fromAddr : List Nat
  toAddr : List Nat
  value : Nat
  validAfter : Nat
  validBefore : Nat
  nonce : List Nat
  v : Nat
  r : Nat
  s : Nat
deriving DecidableEq

/-- `Erc20WithEip3009::transfer_with_authorization` (`src/eip3009.rs:242`):
extracts `v = if signature.v() { 28 } else { 27 }`, `r`, `s` and submits the
call with the timestamps widened to `U256`. -/
def transfer_with_authorization (fromA toA : List Nat) (value : Nat)
    (valid_after valid_before : Nat) (nonce : List Nat) (signature : Signature) :
    AuthorizationCallArgs :=
  { fromAddr := fromA, toAddr := toA, value := value,
    validAfter := u256_from_u64 valid_after,
    validBefore := u256_from_u64 valid_before, nonce := nonce,
    v := if signature.yParity then 28 else 27,
    r := signature.r, s := signature.s }

/-- `Erc20WithEip3009::receive_with_authorization` (`src/eip3009.rs:315`):
same extraction of `v`, `r`, `s` (the call is additionally sent from `to`). -/
def receive_with_authorization (fromA toA : List Nat) (value : Nat)
    (valid_after valid_before : Nat) (nonce : List Nat) (signature : Signature) :
    AuthorizationCallArgs :=
  { fromAddr := fromA, toAddr := toA, value := value,
    validAfter := u256_from_u64 valid_after,
    validBefore := u256_from_u64 valid_before, nonce := nonce,
    v := if signature.yParity then 28 else 27,
    r := signature.r, s := signature.s }

/-- The argument record handed to the contract call `cancelAuthorization`. -/
structure CancelCallArgs where
  authorizer : List Nat
  nonce : List Nat
  v : Nat
  r : Nat
  s : Nat
deriving DecidableEq

/-- `Erc20WithEip3009::cancel_authorization` (`src/eip3009.rs:373`). -/
def cancel_authorization (authorizer nonce : List Nat) (signature : Signature) :
    CancelCallArgs :=
  { authorizer := authorizer, nonce := nonce,
    v := if signature.yParity then 28 else 27,
    r := signature.r, s := signature.s }

/-! ### Spec-side byte layouts (from the spec's words, for comparison) -/

/-- The transfer/receive struct-hash preimage exactly as the spec lays it
out: `type_hash(32) || from(32, left-padded) || to(32, left-padded) ||
value(32, big-endian) || valid_after(32) || valid_before(32) || nonce(32)`. -/
def specAuthStructPreimage (typeHash fromA toA : List Nat)
    (value va vb : Nat) (nonce : List Nat) : List Nat :=
  typeHash ++ (List.replicate 12 0 ++ fromA) ++ (List.replicate 12 0 ++ toA) ++
    word_of_uint value ++ word_of_uint va ++ word_of_uint vb ++ nonce

/-- The cancel struct-hash preimage exactly as the spec lays it out:
`type_hash(32) || authorizer(32, left-padded) || nonce(32)`. -/
def specCancelStructPreimage (typeHash authorizer nonce : List Nat) : List Nat :=
  typeHash ++ (List.replicate 12 0 ++ authorizer) ++ nonce

/-! ### Helper lemmas -/

lemma word_of_uint_length (v : Nat) : (word_of_uint v).length = 32 := by
  simp [word_of_uint]

lemma transfer_typehash_eq :
    keccak256 (strBytes transferTypeString) =
      TRANSFER_WITH_AUTHORIZATION_TYPEHASH := by decide

lemma receive_typehash_eq :
    keccak256 (strBytes receiveTypeString) =
      RECEIVE_WITH_AUTHORIZATION_TYPEHASH := by decide

lemma cancel_typehash_eq :
    keccak256 (strBytes cancelTypeString) =
      CANCEL_AUTHORIZATION_TYPEHASH := by decide

lemma transfer_typehash_length :
    TRANSFER_WITH_AUTHORIZATION_TYPEHASH.length = 32 := by decide

lemma receive_typehash_length :
    RECEIVE_WITH_AUTHORIZATION_TYPEHASH.length = 32 := by decide

lemma cancel_typehash_length :
    CANCEL_AUTHORIZATION_TYPEHASH.length = 32 := by decide

lemma example_transfer_digest :
    hash_transfer_with_authorization (List.replicate 32 1)
      (List.replicate 19 0 ++ [1]) (List.replicate 19 0 ++ [2])
      1000 0 u64_MAX (List.replicate 32 3) =
    [18, 88, 166, 45, 171, 251, 120, 210, 205, 117, 75, 4, 138, 91, 45, 133,
     64, 150, 86, 189, 183, 12, 129, 2, 194, 193, 208, 89, 0, 236, 51, 112] := by
  decide

lemma example_receive_digest :
    hash_receive_with_authorization (List.replicate 32 1)
      (List.replicate 19 0 ++ [1]) (List.replicate 19 0 ++ [2])
      1000 0 u64_MAX (List.replicate 32 3) =
    [81, 40, 128, 139, 93, 253, 38, 101, 248, 241, 158, 16, 127, 135, 177, 250,
     227, 156, 94, 88, 169, 68, 235, 254, 58, 27, 50, 245, 131, 56, 180, 86] := by
  decide

lemma example_transfer2000_digest :
    hash_transfer_with_authorization (List.replicate 32 1)
      (List.replicate 19 0 ++ [1]) (List.replicate 19 0 ++ [2])
      2000 0 u64_MAX (List.replicate 32 3) =
    [91, 48, 48, 63, 143, 45, 97, 57, 135, 104, 225, 75, 30, 75, 150, 186,
     242, 63, 235, 1, 1, 150, 165, 90, 49, 46, 191, 0, 85, 48, 15, 188] := by
  decide

/-! ### Claim theorems -/

/-- C1: each of the three pre-computed 32-byte type-hash constants equals
`keccak256` of its canonical field-signature string. -/
theorem typehash_constants_correct :
    TRANSFER_WITH_AUTHORIZATION_TYPEHASH =
        keccak256 (strBytes transferTypeString) ∧
    RECEIVE_WITH_AUTHORIZATION_TYPEHASH =
        keccak256 (strBytes receiveTypeString) ∧
    CANCEL_AUTHORIZATION_TYPEHASH =
        keccak256 (strBytes cancelTypeString) :=
  ⟨transfer_typehash_eq.symm, receive_typehash_eq.symm, cancel_typehash_eq.symm⟩

/-- C2: for every input, the struct hash computed inside
`hash_transfer_with_authorization` / `hash_receive_with_authorization` is
`keccak256` of the 224-byte concatenation `type_hash(32) || from(32,
left-padded) || to(32, left-padded) || value(32, big-endian) ||
valid_after(32) || valid_before(32) || nonce(32)` with the kind's constant as
type hash, and the struct hash computed inside `hash_cancel_authorization`
is `keccak256` of the 96-byte concatenation `type_hash(32) ||
authorizer(32, left-padded) || nonce(32)`. -/
theorem struct_hash_preimage_layout (fromA toA : List Nat) (value va vb : Nat)
    (nonce authorizer cnonce : List Nat)
    (hf : fromA.length = 20) (ht : toA.length = 20) (hn : nonce.length = 32)
    (ha : authorizer.length = 20) (hc : cnonce.length = 32) :
    (eip712_hash_struct_transfer fromA toA value va vb nonce =
        keccak256 (specAuthStructPreimage TRANSFER_WITH_AUTHORIZATION_TYPEHASH
          fromA toA value va vb nonce) ∧
      (specAuthStructPreimage TRANSFER_WITH_AUTHORIZATION_TYPEHASH
          fromA toA value va vb nonce).length = 224) ∧
    (eip712_hash_struct_receive fromA toA value va vb nonce =
        keccak256 (specAuthStructPreimage RECEIVE_WITH_AUTHORIZATION_TYPEHASH
          fromA toA value va vb nonce) ∧
      (specAuthStructPreimage RECEIVE_WITH_AUTHORIZATION_TYPEHASH
          fromA toA value va vb nonce).length = 224) ∧
    (eip712_hash_struct_cancel authorizer cnonce =
        keccak256 (specCancelStructPreimage CANCEL_AUTHORIZATION_TYPEHASH
          authorizer cnonce) ∧
      (specCancelStructPreimage CANCEL_AUTHORIZATION_TYPEHASH
          authorizer cnonce).length = 96) := by
  refine ⟨⟨?_, ?_⟩, ⟨?_, ?_⟩, ⟨?_, ?_⟩⟩
  · simp only [eip712_hash_struct_transfer, specAuthStructPreimage,
      word_of_address, transfer_typehash_eq]
  · simp [specAuthStructPreimage, transfer_typehash_length,
      word_of_uint_length, hf, ht, hn]
  · simp only [eip712_hash_struct_receive, specAuthStructPreimage,
      word_of_address, receive_typehash_eq]
  · simp [specAuthStructPreimage, receive_typehash_length,
      word_of_uint_length, hf, ht, hn]
  · simp only [eip712_hash_struct_cancel, specCancelStructPreimage,
      word_of_address, cancel_typehash_eq]
  · simp [specCancelStructPreimage, cancel_typehash_length, ha, hc]

/-- Witness for C2 at concrete 20-byte addresses and 32-byte nonces. -/
theorem struct_hash_preimage_layout_witness :
    (List.replicate 20 1).length = 20 ∧ (List.replicate 20 2).length = 20 ∧
    (List.replicate 32 3).length = 32 ∧ (List.replicate 20 4).length = 20 ∧
    (List.replicate 32 5).length = 32 ∧
    ((eip712_hash_struct_transfer (List.replicate 20 1) (List.replicate 20 2)
        5 6 7 (List.replicate 32 3) =
        keccak256 (specAuthStructPreimage TRANSFER_WITH_AUTHORIZATION_TYPEHASH
          (List.replicate 20 1) (List.replicate 20 2) 5 6 7
          (List.replicate 32 3)) ∧
      (specAuthStructPreimage TRANSFER_WITH_AUTHORIZATION_TYPEHASH
          (List.replicate 20 1) (List.replicate 20 2) 5 6 7
          (List.replicate 32 3)).length = 224) ∧
    (eip712_hash_struct_receive (List.replicate 20 1) (List.replicate 20 2)
        5 6 7 (List.replicate 32 3) =
        keccak256 (specAuthStructPreimage RECEIVE_WITH_AUTHORIZATION_TYPEHASH
          (List.replicate 20 1) (List.replicate 20 2) 5 6 7
          (List.replicate 32 3)) ∧
      (specAuthStructPreimage RECEIVE_WITH_AUTHORIZATION_TYPEHASH
          (List.replicate 20 1) (List.replicate 20 2) 5 6 7
          (List.replicate 32 3)).length = 224) ∧
    (eip712_hash_struct_cancel (List.replicate 20 4) (List.replicate 32 5) =
        keccak256 (specCancelStructPreimage CANCEL_AUTHORIZATION_TYPEHASH
          (List.replicate 20 4) (List.replicate 32 5)) ∧
      (specCancelStructPreimage CANCEL_AUTHORIZATION_TYPEHASH
          (List.replicate 20 4) (List.replicate 32 5)).length = 96)) :=
  ⟨by decide, by decide, by decide, by decide, by decide,
   struct_hash_preimage_layout (List.replicate 20 1) (List.replicate 20 2)
     5 6 7 (List.replicate 32 3) (List.replicate 20 4) (List.replicate 32 5)
     (by decide) (by decide) (by decide) (by decide) (by decide)⟩

/-- C3: the final digest is `keccak256` of `0x19 0x01 || domain_separator(32)
|| struct_hash(32)`, a preimage of exactly 66 bytes. -/
theorem final_digest_preimage_layout (ds sh : List Nat)
    (hd : ds.length = 32) (hs : sh.length = 32) :
    compute_eip712_digest ds sh = keccak256 ([0x19, 0x01] ++ ds ++ sh) ∧
    ([0x19, 0x01] ++ ds ++ sh).length = 66 := by
  refine ⟨rfl, ?_⟩
  simp [hd, hs]

/-- Witness for C3 at a concrete domain separator and struct hash. -/
theorem final_digest_preimage_layout_witness :
    (List.replicate 32 1).length = 32 ∧ (List.replicate 32 2).length = 32 ∧
    (compute_eip712_digest (List.replicate 32 1) (List.replicate 32 2) =
        keccak256 ([0x19, 0x01] ++ List.replicate 32 1 ++ List.replicate 32 2) ∧
      ([0x19, 0x01] ++ List.replicate 32 1 ++ List.replicate 32 2).length = 66) :=
  ⟨by decide, by decide,
   final_digest_preimage_layout (List.replicate 32 1) (List.replicate 32 2)
     (by decide) (by decide)⟩

/-- C4: every signing function passes to the signer exactly the digest
produced by the corresponding digest-engine function, with the `u64`
timestamps widened to 256-bit words, and applies the signer to that digest
as-is (no further hashing or prefixing appears between the digest and the
signer). -/
theorem signing_uses_exact_digest {S : Type} (signHash : List Nat → S)
    (params : TransferAuthorizationParams)
    (cparams : CancelAuthorizationParams) (ds : List Nat) :
    sign_transfer_authorization signHash params ds =
        signHash (hash_transfer_with_authorization ds params.fromAddr
          params.toAddr params.value (u256_from_u64 params.valid_after)
          (u256_from_u64 params.valid_before) params.nonce) ∧
    sign_transfer_authorization_sync signHash params ds =
        signHash (hash_transfer_with_authorization ds params.fromAddr
          params.toAddr params.value (u256_from_u64 params.valid_after)
          (u256_from_u64 params.valid_before) params.nonce) ∧
    sign_receive_authorization signHash params ds =
        signHash (hash_receive_with_authorization ds params.fromAddr
          params.toAddr params.value (u256_from_u64 params.valid_after)
          (u256_from_u64 params.valid_before) params.nonce) ∧
    sign_receive_authorization_sync signHash params ds =
        signHash (hash_receive_with_authorization ds params.fromAddr
          params.toAddr params.value (u256_from_u64 params.valid_after)
          (u256_from_u64 params.valid_before) params.nonce) ∧
    sign_cancel_authorization signHash cparams ds =
        signHash (hash_cancel_authorization ds cparams.authorizer
          cparams.nonce) ∧
    sign_cancel_authorization_sync signHash cparams ds =
        signHash (hash_cancel_authorization ds cparams.authorizer
          cparams.nonce) :=
  ⟨rfl, rfl, rfl, rfl, rfl, rfl⟩

/-- C5: at the spec's end-to-end example inputs (domain separator of 32 bytes
`0x01`, `from = 0x…01`, `to = 0x…02`, `value = 1000`, `valid_after = 0`,
`valid_before = u64::MAX`, nonce of 32 bytes `0x03`), the transfer digest is
deterministic, differs from the receive digest of the same fields, and
differs from the transfer digest with only `value` changed to `2000`. -/
theorem example_digest_separation :
    hash_transfer_with_authorization (List.replicate 32 1)
        (List.replicate 19 0 ++ [1]) (List.replicate 19 0 ++ [2])
        1000 0 u64_MAX (List.replicate 32 3) =
      hash_transfer_with_authorization (List.replicate 32 1)
        (List.replicate 19 0 ++ [1]) (List.replicate 19 0 ++ [2])
        1000 0 u64_MAX (List.replicate 32 3) ∧
    hash_transfer_with_authorization (List.replicate 32 1)
        (List.replicate 19 0 ++ [1]) (List.replicate 19 0 ++ [2])
        1000 0 u64_MAX (List.replicate 32 3) ≠
      hash_receive_with_authorization (List.replicate 32 1)
        (List.replicate 19 0 ++ [1]) (List.replicate 19 0 ++ [2])
        1000 0 u64_MAX (List.replicate 32 3) ∧
    hash_transfer_with_authorization (List.replicate 32 1)
        (List.replicate 19 0 ++ [1]) (List.replicate 19 0 ++ [2])
        1000 0 u64_MAX (List.replicate 32 3) ≠
      hash_transfer_with_authorization (List.replicate 32 1)
        (List.replicate 19 0 ++ [1]) (List.replicate 19 0 ++ [2])
        2000 0 u64_MAX (List.replicate 32 3) := by
  refine ⟨rfl, ?_, ?_⟩
  · rw [example_transfer_digest, example_receive_digest]
    decide
  · rw [example_transfer_digest, example_transfer2000_digest]
    decide

/-- C6: a signature serializes to exactly 65 bytes `r(32) || s(32) || v(1)`
whose trailing byte is the `v` the submission functions put on-chain, that
`v` is always 27 or 28, and all three submission functions map the parity
bit `false → 27` and `true → 28`. -/
theorem signature_shape_and_parity_mapping (sig : Signature)
    (fromA toA : List Nat) (value va vb : Nat)
    (nonce authorizer cnonce : List Nat) (r0 s0 : Nat) :
    (Signature.as_bytes sig).length = 65 ∧
    Signature.as_bytes sig = word_of_uint sig.r ++ word_of_uint sig.s ++
      [(transfer_with_authorization fromA toA value va vb nonce sig).v] ∧
    ((transfer_with_authorization fromA toA value va vb nonce sig).v = 27 ∨
      (transfer_with_authorization fromA toA value va vb nonce sig).v = 28) ∧
    (receive_with_authorization fromA toA value va vb nonce sig).v =
      (transfer_with_authorization fromA toA value va vb nonce sig).v ∧
    (cancel_authorization authorizer cnonce sig).v =
      (transfer_with_authorization fromA toA value va vb nonce sig).v ∧
    (transfer_with_authorization fromA toA value va vb nonce
      (Signature.mk r0 s0 false)).v = 27 ∧
    (transfer_with_authorization fromA toA value va vb nonce
      (Signature.mk r0 s0 true)).v = 28 ∧
    (receive_with_authorization fromA toA value va vb nonce
      (Signature.mk r0 s0 false)).v = 27 ∧
    (receive_with_authorization fromA toA value va vb nonce
      (Signature.mk r0 s0 true)).v = 28 ∧
    (cancel_authorization authorizer cnonce (Signature.mk r0 s0 false)).v = 27 ∧
    (cancel_authorization authorizer cnonce (Signature.mk r0 s0 true)).v = 28 := by
  obtain ⟨r1, s1, p⟩ := sig
  cases p <;>
    simp [Signature.as_bytes, transfer_with_authorization,
      receive_with_authorization, cancel_authorization, word_of_uint_length]

/-- C7 counterexample: with the wall clock one second after the epoch and
`duration_seconds = u64::MAX`, the unchecked addition `now + duration`
overflows, so neither helper returns a window at all — the claim's
unconditional "for every duration d" fails. -/
theorem window_arithmetic_overflow_counterexample :
    create_time_bounds (2 ^ 64 - 1) 1 = none ∧
    TransferAuthorizationParams.with_duration [] [] 0 (2 ^ 64 - 1) [] 1 =
      none := by
  constructor <;> decide

/-- C7 (amended): whenever the clock is at or after the epoch and
`now + duration_seconds` fits in a `u64`, `create_time_bounds` returns the
single clock sample as `valid_after` and a window of exactly the requested
length, and `with_duration` stores that same window. -/
theorem window_arithmetic_exact (d : Nat) (nowClock : Int)
    (fromA toA : List Nat) (value : Nat) (nonce : List Nat)
    (h0 : 0 ≤ nowClock) (hov : nowClock.toNat + d ≤ u64_MAX) :
    create_time_bounds d nowClock = some (nowClock.toNat, nowClock.toNat + d) ∧
    (nowClock.toNat + d) - nowClock.toNat = d ∧
    TransferAuthorizationParams.with_duration fromA toA value d nonce nowClock =
      some (TransferAuthorizationParams.new fromA toA value nowClock.toNat
        (nowClock.toNat + d) nonce) := by
  have h1 : ¬ nowClock < 0 := not_lt.mpr h0
  refine ⟨?_, by omega, ?_⟩ <;>
    simp [create_time_bounds, TransferAuthorizationParams.with_duration,
      unix_now_secs, u64_add, TransferAuthorizationParams.new, h1, hov]

/-- Witness for the amended C7 at `now = 1000`, `d = 3600`. -/
theorem window_arithmetic_exact_witness :
    0 ≤ (1000 : Int) ∧ (1000 : Int).toNat + 3600 ≤ u64_MAX ∧
    (create_time_bounds 3600 1000 =
        some ((1000 : Int).toNat, (1000 : Int).toNat + 3600) ∧
      ((1000 : Int).toNat + 3600) - (1000 : Int).toNat = 3600 ∧
      TransferAuthorizationParams.with_duration (List.replicate 20 1)
          (List.replicate 20 2) 7 3600 (List.replicate 32 3) 1000 =
        some (TransferAuthorizationParams.new (List.replicate 20 1)
          (List.replicate 20 2) 7 (1000 : Int).toNat
          ((1000 : Int).toNat + 3600) (List.replicate 32 3))) :=
  ⟨by decide, by decide,
   window_arithmetic_exact 3600 1000 (List.replicate 20 1)
     (List.replicate 20 2) 7 (List.replicate 32 3) (by decide) (by decide)⟩

/-- C8: `new` stores every field exactly as passed with no validation (in
particular any `valid_before ≤ valid_after` pair is stored unchanged),
`CancelAuthorizationParams::new` likewise, and `without_time_bounds` sets
`valid_after = 0` and `valid_before = 2 ^ 64 - 1` while storing the other
fields exactly. -/
theorem constructors_store_fields_exactly (fromA toA : List Nat)
    (value va vb : Nat) (nonce authorizer cnonce : List Nat) :
    (TransferAuthorizationParams.new fromA toA value va vb nonce).fromAddr =
        fromA ∧
    (TransferAuthorizationParams.new fromA toA value va vb nonce).toAddr =
        toA ∧
    (TransferAuthorizationParams.new fromA toA value va vb nonce).value =
        value ∧
    (TransferAuthorizationParams.new fromA toA value va vb nonce).valid_after =
        va ∧
    (TransferAuthorizationParams.new fromA toA value va vb nonce).valid_before =
        vb ∧
    (TransferAuthorizationParams.new fromA toA value va vb nonce).nonce =
        nonce ∧
    (CancelAuthorizationParams.new authorizer cnonce).authorizer = authorizer ∧
    (CancelAuthorizationParams.new authorizer cnonce).nonce = cnonce ∧
    (TransferAuthorizationParams.without_time_bounds fromA toA value
        nonce).fromAddr = fromA ∧
    (TransferAuthorizationParams.without_time_bounds fromA toA value
        nonce).toAddr = toA ∧
    (TransferAuthorizationParams.without_time_bounds fromA toA value
        nonce).value = value ∧
    (TransferAuthorizationParams.without_time_bounds fromA toA value
        nonce).nonce = nonce ∧
    (TransferAuthorizationParams.without_time_bounds fromA toA value
        nonce).valid_after = 0 ∧
    (TransferAuthorizationParams.without_time_bounds fromA toA value
        nonce).valid_before = 2 ^ 64 - 1 :=
  ⟨rfl, rfl, rfl, rfl, rfl, rfl, rfl, rfl, rfl, rfl, rfl, rfl, rfl, rfl⟩

/-- C9: for every params, domain separator and (deterministic) local signer,
the suspending and synchronous variants of each signing operation agree —
they compute the same digest and hand it to the same signer, so the
signatures coincide. -/
theorem sync_async_signing_agree {S : Type} (signHash : List Nat → S)
    (params : TransferAuthorizationParams)
    (cparams : CancelAuthorizationParams) (ds : List Nat) :
    sign_transfer_authorization signHash params ds =
        sign_transfer_authorization_sync signHash params ds ∧
    sign_receive_authorization signHash params ds =
        sign_receive_authorization_sync signHash params ds ∧
    sign_cancel_authorization signHash cparams ds =
        sign_cancel_authorization_sync signHash cparams ds :=
  ⟨rfl, rfl, rfl⟩

/-- C10: when the clock is at or after the epoch and `now + duration_seconds`
does not exceed `u64::MAX`, neither the overflow branch nor the
"Time went backwards" panic branch is taken: `with_duration` and
`create_time_bounds` return normally. -/
theorem time_bounds_no_overflow (fromA toA : List Nat) (value d : Nat)
    (nonce : List Nat) (nowClock : Int)
    (h0 : 0 ≤ nowClock) (hov : nowClock.toNat + d ≤ u64_MAX) :
    (TransferAuthorizationParams.with_duration fromA toA value d nonce
        nowClock).isSome = true ∧
    (create_time_bounds d nowClock).isSome = true := by
  have h1 : ¬ nowClock < 0 := not_lt.mpr h0
  constructor <;>
    simp [TransferAuthorizationParams.with_duration, create_time_bounds,
      unix_now_secs, u64_add, h1, hov]

/-- Witness for C10 at `now = 5`, `d = 60`. -/
theorem time_bounds_no_overflow_witness :
    0 ≤ (5 : Int) ∧ (5 : Int).toNat + 60 ≤ u64_MAX ∧
    ((TransferAuthorizationParams.with_duration (List.replicate 20 1)
        (List.replicate 20 2) 9 60 (List.replicate 32 3) 5).isSome = true ∧
      (create_time_bounds 60 5).isSome = true) :=
  ⟨by decide, by decide,
   time_bounds_no_overflow (List.replicate 20 1) (List.replicate 20 2) 9 60
     (List.replicate 32 3) 5 (by decide) (by decide)⟩

end Erc20
